import Mathlib

/-!
Verification of the reconciliation core of `watcher.py` from
pangolin-autonet-watcher.

The Python source is shallowly embedded: pure helpers (`parse_bool`,
`label_truthy`, `sanitise_alias`, the skip cache operations, the
rescan-interval parsing) become Lean functions over `String` / `List Char`;
the side-effecting reconciler `reconcile_container` becomes a pure function
from a container snapshot, a skip-cache state, a reload result and a
call-outcome oracle to the new cache state, the warn flag and the list of
attempted attach/detach calls; the event loop's cache handling becomes a
step function over event lists.
-/

namespace AutonetWatcher

/-- The whitespace characters removed by Python `str.strip()`. -/
def isPyWs (c : Char) : Bool :=
  c == ' ' || c == '\t' || c == '\n' || c == '\r' || c == '\x0b' || c == '\x0c'

/-- Python `str.strip()` on a character list. -/
def pyStripL (l : List Char) : List Char :=
  ((l.dropWhile isPyWs).reverse.dropWhile isPyWs).reverse

/-- Python `str.strip()`. -/
def pyStrip (s : String) : String :=
  String.mk (pyStripL s.data)

/-- Python `str.lower()` (the ASCII fragment relevant to this program). -/
def pyLower (s : String) : String :=
  String.mk (s.data.map Char.toLower)

/-- `watcher.py` line 32: `parse_bool(value, default)`. -/
def parse_bool (value : Option String) (default : Bool) : Bool :=
  match value with
  | none => default
  | some v =>
    let w := pyLower (pyStrip v)
    if w ∈ (["1", "true", "yes", "y", "on"] : List String) then true
    else if w ∈ (["0", "false", "no", "n", "off"] : List String) then false
    else default

/-- `watcher.py` line 169: `label_truthy(value)`. The argument is the result
of `labels.get(key)`, i.e. `None` or a string. -/
def label_truthy (value : Option String) : Bool :=
  match value with
  | none => false
  | some v =>
    let s := pyLower (pyStrip v)
    if s ∈ (["", "0", "false", "no", "off"] : List String) then false else true

/-- `watcher.py` line 49: `cache_add`. The skip cache
`unsupported_network_cache` is modelled as a duplicate-free list of ids; the
function returns the new cache together with the "newly added" flag. -/
def cache_add (cache : List String) (container_id : String) : List String × Bool :=
  if container_id ∈ cache then (cache, false)
  else (container_id :: cache, true)

/-- `watcher.py` line 58: `cache_remove` (`set.discard`). -/
def cache_remove (cache : List String) (container_id : String) : List String :=
  cache.filter (fun x => decide (x ≠ container_id))

/-- The digit-string fragment of Python `int(str)`: value of a non-empty
all-digit character list. -/
def digitsVal? (l : List Char) : Option Nat :=
  if l.isEmpty || !(l.all Char.isDigit) then none
  else some (l.foldl (fun n c => n * 10 + (c.toNat - 48)) 0)

/-- Python `int(s)` on strings: surrounding whitespace is stripped, an
optional sign is allowed, then one or more decimal digits. (CPython's
permitted single underscores between digits and non-ASCII decimal digits are
outside the fragment this program's configuration uses and are not
modelled: such inputs are treated as a parse failure here.) -/
def pyInt (s : String) : Option Int :=
  match pyStripL s.data with
  | '-' :: rest => (digitsVal? rest).map (fun n => -(n : Int))
  | '+' :: rest => (digitsVal? rest).map (fun n => (n : Int))
  | l => (digitsVal? l).map (fun n => (n : Int))

/-- The process environment, as seen through `os.getenv`. -/
def Env : Type := String → Option String

/-- `os.getenv(key, default)`. -/
def getenvD (env : Env) (key default : String) : String :=
  (env key).getD default

/-- `watcher.py` lines 135-141: the `AUTONET_RESCAN_SECONDS` field of
`load_autonet_config`. A parse failure falls back to 30; a parsed negative
value is clamped to 0. -/
def rescan_seconds (env : Env) : Int :=
  match pyInt (getenvD env "AUTONET_RESCAN_SECONDS" "30") with
  | some n => if n < 0 then 0 else n
  | none => 30

/-- `watcher.py` line 131: the `INITIAL_ATTACH` field of the config. -/
def cfg_initial_attach (env : Env) : Bool :=
  parse_bool (some (getenvD env "INITIAL_ATTACH" "true")) true

/-- `watcher.py` line 132: the `INITIAL_RUNNING_ONLY` field of the config. -/
def cfg_initial_running_only (env : Env) : Bool :=
  parse_bool (some (getenvD env "INITIAL_RUNNING_ONLY" "false")) false

/-- `watcher.py` line 133: the `AUTO_DISCONNECT` field of the config. -/
def cfg_auto_disconnect (env : Env) : Bool :=
  parse_bool (some (getenvD env "AUTO_DISCONNECT" "true")) true

/-- `watcher.py` line 143: the `AUTONET_DEBUG` field of the config. -/
def cfg_debug (env : Env) : Bool :=
  parse_bool (some (getenvD env "AUTONET_DEBUG" "false")) false

/-- The character class `[a-zA-Z0-9]` of `_ALIAS_RE` (`watcher.py` line 78). -/
def isAlnum (c : Char) : Bool :=
  ('a' ≤ c && c ≤ 'z') || ('A' ≤ c && c ≤ 'Z') || ('0' ≤ c && c ≤ '9')

/-- The character class `[a-zA-Z0-9\-]` of `_ALIAS_RE`. -/
def isAlnumHyphen (c : Char) : Bool :=
  isAlnum c || c == '-'

/-- Full-string matching of `_ALIAS_RE`,
`^[a-zA-Z0-9]([a-zA-Z0-9\-]{0,61}[a-zA-Z0-9])?$`: one alphanumeric
character, optionally followed by at most 61 alphanumeric-or-hyphen
characters and a final alphanumeric character. -/
def aliasMatch : List Char → Bool
  | [] => false
  | c :: rest =>
    isAlnum c &&
      (rest.isEmpty ||
        (rest.dropLast.all isAlnumHyphen && decide (rest.dropLast.length ≤ 61) &&
          isAlnum (rest.getLastD 'x')))

/-- What `_ALIAS_RE.match(v)` succeeding means for the whole string: the
pattern, anchored by `^` and `$`, matches `v` itself, or — because Python's
`$` also matches just before a final newline — `v` ends in a newline and the
pattern matches everything before it. -/
def reMatchAlias (l : List Char) : Bool :=
  aliasMatch l ||
    (match l.getLast? with
     | some c => c == '\n' && aliasMatch l.dropLast
     | none => false)

/-- `watcher.py` line 81: `sanitise_alias(value, fallback)`. The candidate is
stripped, truncated to 64 characters, and kept only if it matches
`_ALIAS_RE`; otherwise the fallback is returned unchanged. -/
def sanitise_alias (value fallback : String) : String :=
  let v := (pyStripL value.data).take 64
  if reMatchAlias v then String.mk v else fallback

/-- The DNS-label grammar in the spec's words, with an explicit maximum
length: non-empty, at most `maxLen` characters, first and last character
alphanumeric, every character alphanumeric or hyphen. -/
def dnsLabel (maxLen : Nat) (l : List Char) : Bool :=
  decide (l ≠ []) && decide (l.length ≤ maxLen) &&
    isAlnum (l.headD 'x') && isAlnum (l.getLastD 'x') &&
    l.all isAlnumHyphen

/-- The grammar the code actually enforces on the trimmed, truncated
candidate: a DNS label of length 1 to 63, or such a label followed by one
trailing newline (the `$`-anchor artifact, reachable only when truncation
cuts immediately after an interior newline). -/
def dnsLabelNl (l : List Char) : Bool :=
  dnsLabel 63 l || (l.getLast? == some '\n' && dnsLabel 63 l.dropLast)

/-- Python `s.startswith(p)`. -/
def startsWithS (s p : String) : Bool :=
  p.data.isPrefixOf s.data

/-- `watcher.py` lines 197-198: the test
`net_mode and (net_mode == "host" or net_mode.startswith("container:"))`
applied to the result of `get_network_mode` (which may be `None`). -/
def skipMode : Option String → Bool
  | none => false
  | some m => decide (m ≠ "") && (decide (m = "host") || startsWithS m "container:")

/-- One declared `AUTONET_<n>_KEY` / `AUTONET_<n>_NET` mapping
(`watcher.py` lines 113-118). -/
structure Mapping where
  index : Nat
  label_key : String
  network : String
deriving DecidableEq

/-- The part of the loaded configuration that `reconcile_container` reads
(`watcher.py` lines 176-180). -/
structure Config where
  mappings : List Mapping
  alias_label : String
  auto_disconnect : Bool
deriving DecidableEq

/-- The container state read by one reconciliation pass after `reload()`:
id, display name, `HostConfig.NetworkMode`, the `Config.Labels` dictionary
and the keys of the `NetworkSettings.Networks` dictionary. -/
structure Snapshot where
  id : String
  name : String
  network_mode : Option String
  labels : List (String × String)
  networks : List String
deriving DecidableEq

/-- Python `labels.get(key)`: lookup in the label dictionary. -/
def lookupLabel (labels : List (String × String)) (key : String) : Option String :=
  (labels.find? (fun p => p.1 == key)).map (fun p => p.2)

/-- An attach or detach call issued to the Docker API
(`connect_container_to_network` with its alias list, or
`disconnect_container_from_network`). -/
inductive Action where
  | attach (network aliasName : String)
  | detach (network : String)
deriving DecidableEq

/-- The network an action operates on. -/
def actionNet : Action → String
  | .attach n _ => n
  | .detach n => n

/-- The per-mapping decision of the loop body of `reconcile_container`
(`watcher.py` lines 211-240): `wants_attach` from the label, `is_connected`
from the live networks, the alias from `labels.get(alias_label, name)`
through `sanitise_alias`, then the attach / detach / no-op branch. -/
def decideOne (cfg : Config) (labels : List (String × String)) (name : String)
    (networks : List String) (m : Mapping) : Option Action :=
  let wants_attach := label_truthy (lookupLabel labels m.label_key)
  let is_connected : Bool := decide (m.network ∈ networks)
  let theAlias := sanitise_alias ((lookupLabel labels cfg.alias_label).getD name) name
  if wants_attach && !is_connected then
    some (Action.attach m.network theAlias)
  else if !wants_attach && is_connected && cfg.auto_disconnect then
    some (Action.detach m.network)
  else none

/-- The spec's wording of the same per-mapping rule, stated with
propositional conditions: attach when the label key evaluates truthy and the
network is not attached; detach when the label is not truthy, the network is
attached and auto-disconnect is enabled; otherwise no call. -/
def specAction (cfg : Config) (labels : List (String × String)) (name : String)
    (networks : List String) (m : Mapping) : Option Action :=
  if label_truthy (lookupLabel labels m.label_key) = true ∧ m.network ∉ networks then
    some (Action.attach m.network
      (sanitise_alias ((lookupLabel labels cfg.alias_label).getD name) name))
  else if label_truthy (lookupLabel labels m.label_key) = false ∧ m.network ∈ networks ∧
      cfg.auto_disconnect = true then
    some (Action.detach m.network)
  else none

/-- The `for m in mappings` loop of `reconcile_container`: each decided call
is attempted in declared order; `callOK` is the outcome oracle of an
attempted call (`false` meaning the runtime raised `APIError`, which the
source catches and logs before continuing with the next mapping). -/
def runMappings (cfg : Config) (labels : List (String × String)) (name : String)
    (networks : List String) (callOK : Action → Bool) : List Mapping → List (Action × Bool)
  | [] => []
  | m :: rest =>
    match decideOne cfg labels name networks m with
    | some a => (a, callOK a) :: runMappings cfg labels name networks callOK rest
    | none => runMappings cfg labels name networks callOK rest

/-- Outcome of `container.reload()` at the top of `reconcile_container`:
the declared failure modes of the runtime facade are `NotFound` and
`APIError`, both of which the source catches. -/
inductive ReloadResult where
  | notFound
  | apiError
  | ok (snap : Snapshot)
deriving DecidableEq

/-- `watcher.py` lines 176-245: `reconcile_container`, as a function from
the skip-cache state, the reload outcome and the call-outcome oracle to the
new cache state, the skip-warning flag and the list of attempted calls with
their outcomes. -/
def reconcile_container (cfg : Config) (cache : List String) (r : ReloadResult)
    (callOK : Action → Bool) : List String × Bool × List (Action × Bool) :=
  match r with
  | .notFound => (cache, false, [])
  | .apiError => (cache, false, [])
  | .ok snap =>
    if skipMode snap.network_mode then
      let p := cache_add cache snap.id
      (p.1, p.2, [])
    else
      (cache, false, runMappings cfg snap.labels snap.name snap.networks callOK cfg.mappings)

/-- Effect of a successful call on the daemon-side attached-network set:
attach adds the network, detach removes it. -/
def applyAction (networks : List String) : Action → List String
  | .attach n _ => if n ∈ networks then networks else networks ++ [n]
  | .detach n => networks.filter (fun x => decide (x ≠ n))

/-- Effect of a sequence of successful calls. -/
def applyActions (networks : List String) (as : List Action) : List String :=
  as.foldl applyAction networks

/-- An input to the event loop (`watcher.py` lines 271-309) that touches the
skip cache: a reconciliation trigger for a relevant non-destroy event, or a
`destroy` event, on which the loop prunes the cache and dispatches no
reconciliation. -/
inductive Ev where
  | trigger (r : ReloadResult)
  | destroy (id : String)
deriving DecidableEq

/-- One event-loop step: cache update, warn flag, attempted calls. -/
def event_step (cfg : Config) (callOK : Action → Bool) (cache : List String) :
    Ev → List String × Bool × List (Action × Bool)
  | .trigger r => reconcile_container cfg cache r callOK
  | .destroy i => (cache_remove cache i, false, [])

/-- Processing a list of events: final cache state, total number of skip
warnings emitted, total number of attach/detach calls attempted. -/
def run_events (cfg : Config) (callOK : Action → Bool) (cache : List String) :
    List Ev → List String × Nat × Nat
  | [] => (cache, 0, 0)
  | e :: rest =>
    let out := event_step cfg callOK cache e
    let next := run_events cfg callOK out.1 rest
    (next.1, (if out.2.1 then 1 else 0) + next.2.1, out.2.2.length + next.2.2)

/-- A one-mapping configuration used by concrete witnesses. -/
def cfg7 : Config :=
  { mappings := [{ index := 1, label_key := "com.x.net", network := "appnet" }],
    alias_label := "com.pangolin.autonet.alias", auto_disconnect := true }

/-- A `host`-mode container snapshot used by concrete witnesses. -/
def snap7 : Snapshot :=
  { id := "cid7", name := "web", network_mode := some "host", labels := [], networks := [] }

/-- A two-mapping configuration with distinct networks, used by concrete
witnesses. -/
def cfg8 : Config :=
  { mappings := [{ index := 1, label_key := "com.x.net", network := "appnet" },
                 { index := 2, label_key := "com.x.db", network := "dbnet" }],
    alias_label := "com.pangolin.autonet.alias", auto_disconnect := true }

/-- A snapshot that wants `appnet` attached (truthy label, unattached) and
`dbnet` detached (no label, attached), used by concrete witnesses. -/
def snap8 : Snapshot :=
  { id := "cid8", name := "web", network_mode := some "bridge",
    labels := [("com.x.net", "true")], networks := ["dbnet"] }

/-! ### Helper lemmas -/

theorem parse_bool_unrecognized (v : String) (d : Bool)
    (h1 : pyLower (pyStrip v) ∉ (["1", "true", "yes", "y", "on"] : List String))
    (h2 : pyLower (pyStrip v) ∉ (["0", "false", "no", "n", "off"] : List String)) :
    parse_bool (some v) d = d := by
  simp only [parse_bool]
  rw [if_neg h1, if_neg h2]

theorem not_mem_cache_remove (cache : List String) (x : String) :
    x ∉ cache_remove cache x := by
  simp [cache_remove, List.mem_filter]

/-! ### C4: the truthy rule for label values -/

/-- C4. `label_truthy` returns `false` exactly when the value is absent or
its trimmed, lower-cased form is empty or one of `0`, `false`, `no`, `off`;
every other value yields `true`. -/
theorem C4_label_truthy_iff (v : Option String) :
    label_truthy v = false ↔
      v = none ∨ ∃ s, v = some s ∧
        pyLower (pyStrip s) ∈ (["", "0", "false", "no", "off"] : List String) := by
  cases v with
  | none => simp [label_truthy]
  | some s =>
    by_cases h : pyLower (pyStrip s) ∈ (["", "0", "false", "no", "off"] : List String) <;>
      simp [label_truthy, h] <;> simpa using h

/-! ### C9: the skip cache contract -/

/-- C9. `cache_add` reports `true` exactly on first observation and the id is
present afterwards in either case; `cache_remove` of an absent id is a no-op,
it is idempotent, and the removed id is absent afterwards. The source guards
both operations with the single `_cache_lock`, so each is one atomic
transition of the cache state, which is how they are modelled here. -/
theorem C9_cache_contract (cache : List String) (id : String) :
    ((cache_add cache id).2 = true ↔ id ∉ cache) ∧
    id ∈ (cache_add cache id).1 ∧
    (id ∉ cache → cache_remove cache id = cache) ∧
    cache_remove (cache_remove cache id) id = cache_remove cache id ∧
    id ∉ cache_remove cache id := by
  refine ⟨?_, ?_, ?_, ?_, not_mem_cache_remove cache id⟩
  · unfold cache_add; split <;> simp_all
  · unfold cache_add; split <;> simp_all
  · intro h
    unfold cache_remove
    rw [List.filter_eq_self]
    intro a ha
    simp only [decide_eq_true_eq]
    rintro rfl
    exact h ha
  · unfold cache_remove
    rw [List.filter_filter]
    simp

/-- Witness for C9 at a concrete cache and id. -/
theorem C9_cache_contract_witness :
    (cache_add ["a"] "b").2 = true ∧ "b" ∈ (cache_add ["a"] "b").1 ∧
    cache_remove ["a"] "b" = ["a"] ∧
    cache_remove (cache_remove ["a"] "b") "b" = cache_remove ["a"] "b" ∧
    "b" ∉ cache_remove ["a"] "b" := by
  obtain ⟨h1, h2, h3, h4, h5⟩ := C9_cache_contract ["a"] "b"
  exact ⟨h1.mpr (by decide), h2, h3 (by decide), h4, h5⟩

/-! ### C10: unrecognized boolean configuration values -/

/-- C10. For each boolean option, a value outside both recognized literal
sets yields that option's documented default: `INITIAL_ATTACH` true,
`INITIAL_RUNNING_ONLY` false, `AUTO_DISCONNECT` true, `AUTONET_DEBUG`
false. -/
theorem C10_bool_defaults (env : Env) (a b c d : String)
    (ha : env "INITIAL_ATTACH" = some a)
    (hb : env "INITIAL_RUNNING_ONLY" = some b)
    (hc : env "AUTO_DISCONNECT" = some c)
    (hd : env "AUTONET_DEBUG" = some d)
    (ha1 : pyLower (pyStrip a) ∉ (["1", "true", "yes", "y", "on"] : List String))
    (ha2 : pyLower (pyStrip a) ∉ (["0", "false", "no", "n", "off"] : List String))
    (hb1 : pyLower (pyStrip b) ∉ (["1", "true", "yes", "y", "on"] : List String))
    (hb2 : pyLower (pyStrip b) ∉ (["0", "false", "no", "n", "off"] : List String))
    (hc1 : pyLower (pyStrip c) ∉ (["1", "true", "yes", "y", "on"] : List String))
    (hc2 : pyLower (pyStrip c) ∉ (["0", "false", "no", "n", "off"] : List String))
    (hd1 : pyLower (pyStrip d) ∉ (["1", "true", "yes", "y", "on"] : List String))
    (hd2 : pyLower (pyStrip d) ∉ (["0", "false", "no", "n", "off"] : List String)) :
    cfg_initial_attach env = true ∧ cfg_initial_running_only env = false ∧
    cfg_auto_disconnect env = true ∧ cfg_debug env = false := by
  refine ⟨?_, ?_, ?_, ?_⟩
  · unfold cfg_initial_attach getenvD
    rw [ha, Option.getD_some]
    exact parse_bool_unrecognized a true ha1 ha2
  · unfold cfg_initial_running_only getenvD
    rw [hb, Option.getD_some]
    exact parse_bool_unrecognized b false hb1 hb2
  · unfold cfg_auto_disconnect getenvD
    rw [hc, Option.getD_some]
    exact parse_bool_unrecognized c true hc1 hc2
  · unfold cfg_debug getenvD
    rw [hd, Option.getD_some]
    exact parse_bool_unrecognized d false hd1 hd2

/-- Witness for C10: every boolean option set to `maybe` yields its
documented default. -/
theorem C10_bool_defaults_witness :
    cfg_initial_attach (fun _ => some "maybe") = true ∧
    cfg_initial_running_only (fun _ => some "maybe") = false ∧
    cfg_auto_disconnect (fun _ => some "maybe") = true ∧
    cfg_debug (fun _ => some "maybe") = false :=
  C10_bool_defaults (fun _ => some "maybe") "maybe" "maybe" "maybe" "maybe"
    rfl rfl rfl rfl
    (by decide) (by decide) (by decide) (by decide)
    (by decide) (by decide) (by decide) (by decide)

/-! ### C5: malformed AUTONET_RESCAN_SECONDS -/

/-- C5 counterexample. With `AUTONET_RESCAN_SECONDS="-5"` the effective
interval is `0` (the clamp on a successfully parsed negative value), not the
claimed default of `30`. -/
theorem C5_counterexample :
    rescan_seconds (fun k => if k = "AUTONET_RESCAN_SECONDS" then some "-5" else none) = 0 ∧
    (0 : Int) ≠ 30 := by
  constructor
  · decide
  · decide

/-- C5 amended. Non-numeric text falls back to the default of 30; a string
that parses as a negative integer (such as `-5`) is clamped to 0, disabling
the rescan; a non-negative parse is used as is. -/
theorem C5_rescan_amended (env : Env) (s : String)
    (h : env "AUTONET_RESCAN_SECONDS" = some s) :
    (pyInt s = none → rescan_seconds env = 30) ∧
    (∀ n : Int, pyInt s = some n → n < 0 → rescan_seconds env = 0) ∧
    (∀ n : Int, pyInt s = some n → 0 ≤ n → rescan_seconds env = n) := by
  unfold rescan_seconds getenvD
  rw [h, Option.getD_some]
  refine ⟨?_, ?_, ?_⟩
  · intro hp; rw [hp]
  · intro n hp hn; rw [hp]; simp [hn]
  · intro n hp hn; rw [hp]; simp [not_lt.mpr hn]

/-- Witness for C5 (amended): a non-numeric value yields 30, a non-negative
numeric value is used as is. -/
theorem C5_rescan_amended_witness :
    rescan_seconds (fun k => if k = "AUTONET_RESCAN_SECONDS" then some "abc" else none) = 30 ∧
    rescan_seconds (fun k => if k = "AUTONET_RESCAN_SECONDS" then some "45" else none) = 45 :=
  ⟨(C5_rescan_amended (fun k => if k = "AUTONET_RESCAN_SECONDS" then some "abc" else none)
      "abc" (by decide)).1 (by decide),
   (C5_rescan_amended (fun k => if k = "AUTONET_RESCAN_SECONDS" then some "45" else none)
      "45" (by decide)).2.2 45 (by decide) (by decide)⟩

/-! ### C3: the alias sanitizer -/

theorem isAlnumHyphen_of_isAlnum {c : Char} (h : isAlnum c = true) :
    isAlnumHyphen c = true := by
  simp [isAlnumHyphen, h]

/-- The regex `_ALIAS_RE` accepts exactly the DNS labels of length 1 to 63:
one alphanumeric character, or an alphanumeric head, up to 61
alphanumeric-or-hyphen interior characters, and an alphanumeric last
character. -/
theorem aliasMatch_eq_dnsLabel (l : List Char) : aliasMatch l = dnsLabel 63 l := by
  rw [Bool.eq_iff_iff]
  cases l with
  | nil => simp [aliasMatch, dnsLabel]
  | cons c rest =>
    cases rest with
    | nil =>
      constructor
      · intro h
        have hc : isAlnum c = true := by simpa [aliasMatch] using h
        simp [dnsLabel, hc, isAlnumHyphen_of_isAlnum hc]
      · intro h
        have hc : isAlnum c = true := by
          simp [dnsLabel] at h
          tauto
        simp [aliasMatch, hc]
    | cons d tl =>
      obtain ⟨mid, last, hml⟩ : ∃ mid last, d :: tl = mid ++ [last] :=
        ⟨(d :: tl).dropLast, (d :: tl).getLast (by simp),
          (List.dropLast_append_getLast (by simp)).symm⟩
      have hdrop : (d :: tl).dropLast = mid := by
        rw [hml]; exact List.dropLast_concat
      have hlast : (d :: tl).getLastD 'x' = last := by
        rw [hml]; simp [List.getLastD_eq_getLast?]
      have hlastc : (d :: tl).getLastD c = last := by
        rw [hml]; simp [List.getLastD_eq_getLast?]
      have hlen : (d :: tl).length = mid.length + 1 := by rw [hml]; simp
      have hall : (d :: tl).all isAlnumHyphen = (mid.all isAlnumHyphen && isAlnumHyphen last) := by
        rw [hml]; simp
      simp only [aliasMatch, List.isEmpty_cons, Bool.false_or, hdrop, hlast]
      simp only [dnsLabel, List.headD_cons, List.getLastD_cons, hlastc, List.all_cons, hall,
        List.length_cons, hlen]
      simp only [Bool.and_eq_true, Bool.or_eq_true, decide_eq_true_eq, ne_eq, reduceCtorEq,
        not_false_iff, true_and]
      constructor
      · rintro ⟨h1, ⟨h2, h3⟩, h4⟩
        exact ⟨⟨⟨by omega, h1⟩, h4⟩, isAlnumHyphen_of_isAlnum h1, h2, isAlnumHyphen_of_isAlnum h4⟩
      · rintro ⟨⟨⟨hlen2, h1⟩, h4⟩, hc, h2, hl⟩
        exact ⟨h1, ⟨h2, by omega⟩, h4⟩

/-- C3 counterexample. A candidate of 64 `a` characters satisfies the
claim's grammar (total length 1 to 64), survives trimming and truncation
unchanged, yet `sanitise_alias` rejects it and returns the fallback: the
grammar the code enforces caps the length at 63, not 64. -/
theorem C3_counterexample :
    dnsLabel 64 (List.replicate 64 'a') = true ∧
    (pyStripL (String.mk (List.replicate 64 'a')).data).take 64 = List.replicate 64 'a' ∧
    sanitise_alias (String.mk (List.replicate 64 'a')) "fallback" = "fallback" ∧
    String.mk (List.replicate 64 'a') ≠ "fallback" := by
  refine ⟨by decide, by decide, by decide, by decide⟩

/-- The whole-string acceptance of `_ALIAS_RE.match` is the 1-to-63 DNS
label grammar, up to the `$`-before-final-newline artifact. -/
theorem reMatchAlias_eq_dnsLabelNl (l : List Char) : reMatchAlias l = dnsLabelNl l := by
  unfold reMatchAlias dnsLabelNl
  rw [aliasMatch_eq_dnsLabel, aliasMatch_eq_dnsLabel]
  cases h : l.getLast? with
  | none => simp
  | some c => simp [h]

/-- C3 amended. `sanitise_alias` returns the trimmed, 64-character-truncated
candidate if and only if that value matches the DNS-label grammar with total
length 1 to 63 (start and end alphanumeric, interior alphanumeric or
hyphen) — or, an artifact of the regex's `$` anchor, is such a label
followed by one trailing newline, reachable only when truncation cuts right
after an interior newline; otherwise it returns exactly the fallback. It is
a total function, so it never raises, and never returns a partially
sanitized value. -/
theorem C3_sanitise_grammar (value fallback : String) :
    sanitise_alias value fallback =
      if dnsLabelNl ((pyStripL value.data).take 64) then
        String.mk ((pyStripL value.data).take 64)
      else fallback := by
  simp only [sanitise_alias, reMatchAlias_eq_dnsLabelNl]

/-! ### C2: containers with unattachable network modes -/

/-- C2 counterexample. A container whose network mode is `none` is not
skipped: with a truthy mapping label and the network unattached, the
reconciler issues an attach call and does not record the id in the skip
cache, contrary to the claim that `none` is among the skipped modes. -/
theorem C2_counterexample :
    (reconcile_container
        { mappings := [{ index := 1, label_key := "com.x.net", network := "appnet" }],
          alias_label := "com.pangolin.autonet.alias", auto_disconnect := true }
        []
        (.ok { id := "cid1", name := "web", network_mode := some "none",
               labels := [("com.x.net", "true")], networks := [] })
        (fun _ => true)).2.2 ≠ [] ∧
    "cid1" ∉ (reconcile_container
        { mappings := [{ index := 1, label_key := "com.x.net", network := "appnet" }],
          alias_label := "com.pangolin.autonet.alias", auto_disconnect := true }
        []
        (.ok { id := "cid1", name := "web", network_mode := some "none",
               labels := [("com.x.net", "true")], networks := [] })
        (fun _ => true)).1 := by
  refine ⟨by decide, by decide⟩

theorem skipMode_of (m : String) (h : m = "host" ∨ startsWithS m "container:" = true) :
    skipMode (some m) = true := by
  rcases h with rfl | h
  · decide
  · have hne : m ≠ "" := by
      intro he
      subst he
      exact absurd h (by decide)
    simp [skipMode, hne, h]

/-- C2 amended. For every container whose network mode is `host` or begins
with `container:` (but not `none`, which the code does not skip), reconcile
records the id in the skip cache, reports the one-time warning exactly when
the id was not already cached, and issues no attach or detach call. -/
theorem C2_skip_unattachable (cfg : Config) (cache : List String) (snap : Snapshot)
    (callOK : Action → Bool) (m : String)
    (hm : snap.network_mode = some m)
    (h : m = "host" ∨ startsWithS m "container:" = true) :
    snap.id ∈ (reconcile_container cfg cache (.ok snap) callOK).1 ∧
    ((reconcile_container cfg cache (.ok snap) callOK).2.1 = true ↔ snap.id ∉ cache) ∧
    (reconcile_container cfg cache (.ok snap) callOK).2.2 = [] := by
  have hskip : skipMode snap.network_mode = true := by
    rw [hm]; exact skipMode_of m h
  simp only [reconcile_container, hskip, if_true]
  unfold cache_add
  split <;> simp_all

/-- Witness for C2 (amended) at a concrete `host`-mode container. -/
theorem C2_skip_unattachable_witness :
    "cid9" ∈ (reconcile_container
        { mappings := [{ index := 1, label_key := "com.x.net", network := "appnet" }],
          alias_label := "com.pangolin.autonet.alias", auto_disconnect := true }
        []
        (.ok { id := "cid9", name := "web", network_mode := some "host",
               labels := [("com.x.net", "true")], networks := [] })
        (fun _ => true)).1 ∧
    ((reconcile_container
        { mappings := [{ index := 1, label_key := "com.x.net", network := "appnet" }],
          alias_label := "com.pangolin.autonet.alias", auto_disconnect := true }
        []
        (.ok { id := "cid9", name := "web", network_mode := some "host",
               labels := [("com.x.net", "true")], networks := [] })
        (fun _ => true)).2.1 = true ↔ "cid9" ∉ ([] : List String)) ∧
    (reconcile_container
        { mappings := [{ index := 1, label_key := "com.x.net", network := "appnet" }],
          alias_label := "com.pangolin.autonet.alias", auto_disconnect := true }
        []
        (.ok { id := "cid9", name := "web", network_mode := some "host",
               labels := [("com.x.net", "true")], networks := [] })
        (fun _ => true)).2.2 = [] :=
  C2_skip_unattachable _ [] _ (fun _ => true) "host" rfl (Or.inl rfl)

/-! ### C1: the per-mapping attach/detach rule -/

theorem decideOne_eq_specAction (cfg : Config) (labels : List (String × String))
    (name : String) (networks : List String) (m : Mapping) :
    decideOne cfg labels name networks m = specAction cfg labels name networks m := by
  by_cases hmem : m.network ∈ networks <;>
    cases h1 : label_truthy (lookupLabel labels m.label_key) <;>
    cases h3 : cfg.auto_disconnect <;>
    simp [decideOne, specAction, h1, h3, hmem]

theorem runMappings_map_fst (cfg : Config) (labels : List (String × String))
    (name : String) (networks : List String) (callOK : Action → Bool) (ms : List Mapping) :
    (runMappings cfg labels name networks callOK ms).map Prod.fst =
      ms.filterMap (decideOne cfg labels name networks) := by
  induction ms with
  | nil => rfl
  | cons m rest ih =>
    simp only [runMappings, List.filterMap_cons]
    cases h : decideOne cfg labels name networks m <;> simp [h, ih]

theorem reconcile_attempts_oracle (cfg : Config) (cache1 cache2 : List String)
    (snap : Snapshot) (ok1 ok2 : Action → Bool) :
    (reconcile_container cfg cache1 (.ok snap) ok1).2.2.map Prod.fst =
      (reconcile_container cfg cache2 (.ok snap) ok2).2.2.map Prod.fst := by
  unfold reconcile_container
  by_cases h : skipMode snap.network_mode <;> simp [h, runMappings_map_fst]

theorem reconcile_attempts_spec (cfg : Config) (cache : List String) (snap : Snapshot)
    (callOK : Action → Bool) (h : skipMode snap.network_mode = false) :
    (reconcile_container cfg cache (.ok snap) callOK).2.2.map Prod.fst =
      cfg.mappings.filterMap (specAction cfg snap.labels snap.name snap.networks) := by
  simp only [reconcile_container, h, Bool.false_eq_true, if_false]
  rw [runMappings_map_fst]
  exact List.filterMap_congr (fun m _ =>
    decideOne_eq_specAction cfg snap.labels snap.name snap.networks m)

/-- C1. Past the skip check, the attempted calls are exactly one per mapping
in declared order according to the spec's rule: an attach with the sanitized
alias read from `labels[alias_label]` (display name when absent) when the
mapping's label is truthy and the network unattached; a detach when the
label is not truthy, the network is attached and auto-disconnect is on; no
call otherwise. `List.filterMap` over the declared mapping order makes the
"exactly one / none" accounting explicit. -/
theorem C1_per_mapping (cfg : Config) (cache : List String) (snap : Snapshot)
    (callOK : Action → Bool) (h : skipMode snap.network_mode = false) :
    (reconcile_container cfg cache (.ok snap) callOK).2.2.map Prod.fst =
      cfg.mappings.filterMap (specAction cfg snap.labels snap.name snap.networks) :=
  reconcile_attempts_spec cfg cache snap callOK h

/-- Witness for C1 at a concrete container with one truthy mapping. -/
theorem C1_per_mapping_witness :
    (reconcile_container
        { mappings := [{ index := 1, label_key := "com.x.net", network := "appnet" }],
          alias_label := "com.pangolin.autonet.alias", auto_disconnect := true }
        []
        (.ok { id := "cid1", name := "web", network_mode := some "bridge",
               labels := [("com.x.net", "true")], networks := [] })
        (fun _ => true)).2.2.map Prod.fst =
      [{ index := 1, label_key := "com.x.net", network := "appnet" }].filterMap
        (specAction
          { mappings := [{ index := 1, label_key := "com.x.net", network := "appnet" }],
            alias_label := "com.pangolin.autonet.alias", auto_disconnect := true }
          [("com.x.net", "true")] "web" []) :=
  C1_per_mapping _ [] _ (fun _ => true) (by decide)

/-! ### C6: failures are absorbed, never propagated -/

/-- C6. `reconcile_container` is a total function of the reload outcome: a
not-found reload returns silently and an API-error reload returns with no
attach/detach attempts and no cache change; and the list of attempted calls
does not depend on the per-call outcome oracle, so a failing attach or
detach never suppresses the processing of the remaining mappings. -/
theorem C6_failures_absorbed (cfg : Config) (cache : List String)
    (callOK ok1 ok2 : Action → Bool) (snap : Snapshot) :
    reconcile_container cfg cache .notFound callOK = (cache, false, []) ∧
    reconcile_container cfg cache .apiError callOK = (cache, false, []) ∧
    (reconcile_container cfg cache (.ok snap) ok1).2.2.map Prod.fst =
      (reconcile_container cfg cache (.ok snap) ok2).2.2.map Prod.fst :=
  ⟨rfl, rfl, reconcile_attempts_oracle cfg cache cache snap ok1 ok2⟩

/-! ### C7: the warning is one-shot until a destroy event -/

theorem reconcile_skip_new (cfg : Config) (callOK : Action → Bool) (cache : List String)
    (snap : Snapshot) (hskip : skipMode snap.network_mode = true)
    (hnot : snap.id ∉ cache) :
    reconcile_container cfg cache (.ok snap) callOK = (snap.id :: cache, true, []) := by
  simp [reconcile_container, cache_add, hskip, hnot]

theorem reconcile_skip_seen (cfg : Config) (callOK : Action → Bool) (cache : List String)
    (snap : Snapshot) (hskip : skipMode snap.network_mode = true)
    (hmem : snap.id ∈ cache) :
    reconcile_container cfg cache (.ok snap) callOK = (cache, false, []) := by
  simp [reconcile_container, cache_add, hskip, hmem]

theorem run_triggers_seen (cfg : Config) (callOK : Action → Bool) (snap : Snapshot)
    (hskip : skipMode snap.network_mode = true) :
    ∀ (n : Nat) (cache : List String), snap.id ∈ cache →
      run_events cfg callOK cache (List.replicate n (Ev.trigger (.ok snap))) = (cache, 0, 0) := by
  intro n
  induction n with
  | zero => intro cache _; rfl
  | succ k ih =>
    intro cache hmem
    rw [List.replicate_succ]
    simp only [run_events, event_step]
    simp [reconcile_skip_seen cfg callOK cache snap hskip hmem, ih cache hmem]

/-- C7. For a container with an unattachable network mode that is not yet in
the skip cache, any positive number of consecutive reconciliation triggers
emits the skip warning exactly once and attempts no attach/detach call, and
leaves the id cached; the `destroy` event for that id emits no warning,
dispatches no reconciliation call, and removes the id from the cache; after
it, a further trigger warns again (in particular a container reusing a fresh
id can warn again). -/
theorem C7_warn_once_until_destroy (cfg : Config) (callOK : Action → Bool)
    (cache : List String) (snap : Snapshot) (n : Nat)
    (hskip : skipMode snap.network_mode = true) (hnot : snap.id ∉ cache) :
    (run_events cfg callOK cache (List.replicate (n + 1) (Ev.trigger (.ok snap)))).2.1 = 1 ∧
    (run_events cfg callOK cache (List.replicate (n + 1) (Ev.trigger (.ok snap)))).2.2 = 0 ∧
    snap.id ∈ (run_events cfg callOK cache (List.replicate (n + 1) (Ev.trigger (.ok snap)))).1 ∧
    (event_step cfg callOK
        (run_events cfg callOK cache (List.replicate (n + 1) (Ev.trigger (.ok snap)))).1
        (Ev.destroy snap.id)).2.1 = false ∧
    (event_step cfg callOK
        (run_events cfg callOK cache (List.replicate (n + 1) (Ev.trigger (.ok snap)))).1
        (Ev.destroy snap.id)).2.2 = [] ∧
    snap.id ∉ (event_step cfg callOK
        (run_events cfg callOK cache (List.replicate (n + 1) (Ev.trigger (.ok snap)))).1
        (Ev.destroy snap.id)).1 ∧
    (run_events cfg callOK
        (event_step cfg callOK
          (run_events cfg callOK cache (List.replicate (n + 1) (Ev.trigger (.ok snap)))).1
          (Ev.destroy snap.id)).1
        [Ev.trigger (.ok snap)]).2.1 = 1 := by
  have key : run_events cfg callOK cache (List.replicate (n + 1) (Ev.trigger (.ok snap))) =
      (snap.id :: cache, 1, 0) := by
    rw [List.replicate_succ]
    simp only [run_events, event_step]
    simp [reconcile_skip_new cfg callOK cache snap hskip hnot,
      run_triggers_seen cfg callOK snap hskip n (snap.id :: cache) (List.mem_cons_self _ _)]
  rw [key]
  have hrm : snap.id ∉ cache_remove (snap.id :: cache) snap.id :=
    not_mem_cache_remove (snap.id :: cache) snap.id
  refine ⟨rfl, rfl, List.mem_cons_self _ _, rfl, rfl, hrm, ?_⟩
  show (run_events cfg callOK (cache_remove (snap.id :: cache) snap.id)
      [Ev.trigger (.ok snap)]).2.1 = 1
  simp only [run_events, event_step]
  simp [reconcile_skip_new cfg callOK _ snap hskip hrm]

/-- Witness for C7 at a concrete `host`-mode container, two triggers. -/
theorem C7_warn_once_until_destroy_witness :
    (run_events cfg7 (fun _ => true) [] (List.replicate 2 (Ev.trigger (.ok snap7)))).2.1 = 1 ∧
    snap7.id ∈ (run_events cfg7 (fun _ => true) []
      (List.replicate 2 (Ev.trigger (.ok snap7)))).1 := by
  obtain ⟨h1, h2, h3, h4, h5, h6, h7⟩ :=
    C7_warn_once_until_destroy cfg7 (fun _ => true) [] snap7 1 (by decide) (by decide)
  exact ⟨h1, h3⟩

/-! ### C8: idempotence of reconciliation -/

theorem actionNet_specAction (cfg : Config) (labels : List (String × String))
    (name : String) (networks : List String) (m : Mapping) (a : Action)
    (h : specAction cfg labels name networks m = some a) : actionNet a = m.network := by
  unfold specAction at h
  split_ifs at h
  · injection h with h'
    subst h'
    rfl
  · injection h with h'
    subst h'
    rfl

theorem mem_applyAction_ne (networks : List String) (x : String) (a : Action)
    (h : x ≠ actionNet a) : x ∈ applyAction networks a ↔ x ∈ networks := by
  cases a with
  | attach n al =>
    simp only [actionNet] at h
    simp only [applyAction]
    split
    · exact Iff.rfl
    · simp [h]
  | detach n =>
    simp only [actionNet] at h
    simp [applyAction, List.mem_filter, h]

theorem mem_applyActions_ne (x : String) (as : List Action)
    (h : ∀ a ∈ as, x ≠ actionNet a) :
    ∀ networks, x ∈ applyActions networks as ↔ x ∈ networks := by
  induction as with
  | nil => intro networks; exact Iff.rfl
  | cons a rest ih =>
    intro networks
    have hx := h a (List.mem_cons_self _ _)
    have hrest : ∀ b ∈ rest, x ≠ actionNet b := fun b hb => h b (List.mem_cons_of_mem _ hb)
    have step : applyActions networks (a :: rest) = applyActions (applyAction networks a) rest :=
      rfl
    rw [step]
    exact (ih hrest (applyAction networks a)).trans (mem_applyAction_ne networks x a hx)

theorem specAction_congr (cfg : Config) (labels : List (String × String)) (name : String)
    (N1 N2 : List String) (m : Mapping) (h : m.network ∈ N1 ↔ m.network ∈ N2) :
    specAction cfg labels name N1 m = specAction cfg labels name N2 m := by
  simp only [specAction, h]

theorem actionNet_mem_of_filterMap (cfg : Config) (labels : List (String × String))
    (name : String) (nets : List String) (ms : List Mapping) :
    ∀ a ∈ ms.filterMap (specAction cfg labels name nets),
      actionNet a ∈ ms.map Mapping.network := by
  intro a ha
  rcases List.mem_filterMap.mp ha with ⟨m, hm, hsm⟩
  rw [actionNet_specAction cfg labels name nets m a hsm]
  exact List.mem_map_of_mem _ hm

/-- After one pass of decisions taken against `nets` is applied, no mapping
still wants a change, provided the mappings target pairwise distinct
networks. `nets1` generalizes the fold start for the induction; it agrees
with `nets` on all the mapped networks. -/
theorem specAction_converge (cfg : Config) (labels : List (String × String)) (name : String) :
    ∀ (ms : List Mapping) (nets nets1 : List String),
      (ms.map Mapping.network).Nodup →
      (∀ m ∈ ms, (m.network ∈ nets1 ↔ m.network ∈ nets)) →
      ∀ m ∈ ms,
        specAction cfg labels name
          (applyActions nets1 (ms.filterMap (specAction cfg labels name nets))) m = none := by
  intro ms
  induction ms with
  | nil => intro nets nets1 _ _ m hm; exact absurd hm (List.not_mem_nil m)
  | cons m0 rest ih =>
    intro nets nets1 hnd hag m hm
    have hnd' : (Mapping.network m0 :: rest.map Mapping.network).Nodup := by simpa using hnd
    obtain ⟨hnd0, hndr⟩ := List.nodup_cons.mp hnd'
    cases h0 : specAction cfg labels name nets m0 with
    | none =>
      rw [List.filterMap_cons_none h0]
      rcases List.mem_cons.mp hm with rfl | hmr
      · have hne : ∀ b ∈ rest.filterMap (specAction cfg labels name nets),
            m.network ≠ actionNet b := by
          intro b hb hEq
          exact hnd0 (hEq ▸ actionNet_mem_of_filterMap cfg labels name nets rest b hb)
        have hmm := mem_applyActions_ne m.network _ hne nets1
        rw [specAction_congr cfg labels name _ nets m (hmm.trans (hag m hm))]
        exact h0
      · exact ih nets nets1 hndr (fun mm hmm2 => hag mm (List.mem_cons_of_mem _ hmm2)) m hmr
    | some a =>
      rw [List.filterMap_cons_some h0]
      have hstep : applyActions nets1 (a :: rest.filterMap (specAction cfg labels name nets)) =
          applyActions (applyAction nets1 a) (rest.filterMap (specAction cfg labels name nets)) :=
        rfl
      rw [hstep]
      have hAnet : actionNet a = m0.network := actionNet_specAction _ _ _ _ _ _ h0
      rcases List.mem_cons.mp hm with rfl | hmr
      · have hne : ∀ b ∈ rest.filterMap (specAction cfg labels name nets),
            m.network ≠ actionNet b := by
          intro b hb hEq
          exact hnd0 (hEq ▸ actionNet_mem_of_filterMap cfg labels name nets rest b hb)
        have hmm := mem_applyActions_ne m.network _ hne (applyAction nets1 a)
        unfold specAction at h0
        split_ifs at h0 with hc1 hc2
        · obtain ⟨ht, hnm⟩ := hc1
          injection h0 with h0'
          subst h0'
          have hmem1 : m.network ∈ applyAction nets1
              (Action.attach m.network
                (sanitise_alias ((lookupLabel labels cfg.alias_label).getD name) name)) := by
            simp only [applyAction]
            split
            · assumption
            · simp
          have hmemA := hmm.mpr hmem1
          simp [specAction, ht, hmemA]
        · obtain ⟨hf, hin, had⟩ := hc2
          injection h0 with h0'
          subst h0'
          have hmem1 : m.network ∉ applyAction nets1 (Action.detach m.network) := by
            simp [applyAction, List.mem_filter]
          have hmemA : m.network ∉ applyActions (applyAction nets1 (Action.detach m.network))
              (rest.filterMap (specAction cfg labels name nets)) := fun hx => hmem1 (hmm.mp hx)
          simp [specAction, hf, hmemA]
      · apply ih nets (applyAction nets1 a) hndr ?_ m hmr
        intro mm hmm2
        have hne : mm.network ≠ actionNet a := by
          rw [hAnet]
          intro hEq
          exact hnd0 (hEq ▸ List.mem_map_of_mem _ hmm2)
        exact (mem_applyAction_ne nets1 mm.network a hne).trans
          (hag mm (List.mem_cons_of_mem _ hmm2))

theorem runMappings_eq_nil (cfg : Config) (labels : List (String × String)) (name : String)
    (networks : List String) (callOK : Action → Bool) :
    ∀ ms : List Mapping, (∀ m ∈ ms, decideOne cfg labels name networks m = none) →
      runMappings cfg labels name networks callOK ms = [] := by
  intro ms
  induction ms with
  | nil => intro _; rfl
  | cons m rest ih =>
    intro h
    simp only [runMappings, h m (List.mem_cons_self _ _)]
    exact ih (fun mm hmm => h mm (List.mem_cons_of_mem _ hmm))

/-- C8 counterexample. A container whose live state is unchanged between two
invocations does not in general receive zero calls on the second one: here
both calls of the first invocation fail (`APIError`), so no successful call
changed the attached networks, and the (deterministic) second invocation on
the identical snapshot attempts the same two calls — not zero. -/
theorem C8_counterexample :
    ((reconcile_container cfg8 [] (.ok snap8) (fun _ => false)).2.2.filter
        (fun p => p.2)).map Prod.fst = [] ∧
    ((reconcile_container cfg8 [] (.ok snap8) (fun _ => false)).2.2.map Prod.fst).length = 2 ∧
    ((reconcile_container cfg8 [] (.ok snap8) (fun _ => false)).2.2.map Prod.fst).length ≠ 0 := by
  refine ⟨by decide, by decide, by decide⟩

/-- C8 amended. On an unchanged snapshot a second invocation attempts
exactly the same attach/detach calls as the first (so zero additional calls
whenever the first invocation already found the state consistent); and when
every attempted call of the first invocation succeeds — so the live
attached-network set reflects them — and the mappings target pairwise
distinct networks, the second invocation issues zero calls. -/
theorem C8_idempotent (cfg : Config) (cache1 cache2 : List String) (snap : Snapshot)
    (ok1 ok2 : Action → Bool)
    (hnd : (cfg.mappings.map Mapping.network).Nodup) :
    (reconcile_container cfg cache1 (.ok snap) ok1).2.2.map Prod.fst =
      (reconcile_container cfg cache2 (.ok snap) ok2).2.2.map Prod.fst ∧
    (reconcile_container cfg cache2
        (.ok { snap with
               networks := applyActions snap.networks
                             ((reconcile_container cfg cache1 (.ok snap) ok1).2.2.map
                               Prod.fst) })
        ok2).2.2 = [] := by
  refine ⟨reconcile_attempts_oracle cfg cache1 cache2 snap ok1 ok2, ?_⟩
  by_cases h : skipMode snap.network_mode
  · simp [reconcile_container, h]
  · rw [reconcile_attempts_spec cfg cache1 snap ok1 (by simpa using h)]
    simp only [reconcile_container]
    rw [if_neg (by simpa using h)]
    apply runMappings_eq_nil
    intro m hm
    rw [decideOne_eq_specAction]
    exact specAction_converge cfg snap.labels snap.name cfg.mappings snap.networks snap.networks
      hnd (fun _ _ => Iff.rfl) m hm

/-- Witness for C8 (amended) at a concrete two-mapping configuration. -/
theorem C8_idempotent_witness :
    (reconcile_container cfg8 [] (.ok snap8) (fun _ => true)).2.2.map Prod.fst =
      (reconcile_container cfg8 [] (.ok snap8) (fun _ => true)).2.2.map Prod.fst ∧
    (reconcile_container cfg8 []
        (.ok { snap8 with
               networks := applyActions snap8.networks
                             ((reconcile_container cfg8 [] (.ok snap8) (fun _ => true)).2.2.map
                               Prod.fst) })
        (fun _ => true)).2.2 = [] :=
  C8_idempotent cfg8 [] [] snap8 (fun _ => true) (fun _ => true) (by decide)

end AutonetWatcher
